import Mathlib

/-
Verification of the MPF show controller and shot device
(src/mpf/core/show_controller.py, src/mpf/devices/shot.py).

Python values are embedded as follows: ints as Int (or Nat where the source
only ever holds non-negative values), floats arising from ms/1000.0 as Rat,
strings as String, lists as List, object identity for devices and shows as
Nat ids.  Facade calls (light.on, led.color, coil.pulse, gi.enable,
flasher.flash, events.post, bcp_trigger) are recorded as values of explicit
call types instead of performing IO.
-/

namespace Mpf

/-! ## Update records (ShowController.add_to_light_update_list / led) -/

/-- A pending light update record, the dict built in
ShowController.add_to_light_update_list. -/
structure LightRec where
  light : Nat
  brightness : Nat
  fade_ms : Nat
  priority : Int
  blend : Bool
deriving DecidableEq, Repr

/-- A pending LED update record, the dict built in
ShowController.add_to_led_update_list.  Colors are embedded as the Nat value
of the 24-bit RGB triple. -/
structure LedRec where
  led : Nat
  color : Nat
  fade_ms : Nat
  priority : Int
  blend : Bool
deriving DecidableEq, Repr

/-- Fuel-indexed body of a Python `for item in lst: if cond(item):
lst.remove(item)` loop.  The Python list iterator keeps an index that it
increments on every `next()` call even when the body removes the current
element, so a removal makes the iterator skip the element that shifts into
the removed slot; `list.remove` deletes the first element equal to the
argument.  `i` is the iterator index; the fuel only forces structural
termination and `pyRemoveLoop` supplies enough of it that it is never
exhausted. -/
def pyRemoveLoopF {α : Type} [DecidableEq α] (cond : α → Bool) :
    Nat → List α → Nat → List α
  | 0, l, _ => l
  | fuel + 1, l, i =>
    if h : i < l.length then
      if cond (l.get ⟨i, h⟩) then
        pyRemoveLoopF cond fuel (l.erase (l.get ⟨i, h⟩)) (i + 1)
      else
        pyRemoveLoopF cond fuel l (i + 1)
    else l

/-- The Python remove-while-iterating loop over `l` starting at iterator
index `i` (the loops in add_to_light_update_list and add_to_led_update_list
start at 0). -/
def pyRemoveLoop {α : Type} [DecidableEq α] (cond : α → Bool) (l : List α) (i : Nat) :
    List α :=
  pyRemoveLoopF cond (l.length - i) l i

/-- ShowController.add_to_light_update_list: scan the pending list removing
records for the same light at the same or lower priority, then append the new
record. -/
def add_to_light_update_list (l : List LightRec) (light : Nat) (brightness : Nat)
    (fade_ms : Nat) (priority : Int) (blend : Bool) : List LightRec :=
  pyRemoveLoop (fun item => item.light == light && decide (item.priority ≤ priority)) l 0 ++
    [{ light := light, brightness := brightness, fade_ms := fade_ms,
       priority := priority, blend := blend }]

/-- ShowController.add_to_led_update_list: same scan-and-append shape as the
light variant. -/
def add_to_led_update_list (l : List LedRec) (led : Nat) (color : Nat)
    (fade_ms : Nat) (priority : Int) (blend : Bool) : List LedRec :=
  pyRemoveLoop (fun item => item.led == led && decide (item.priority ≤ priority)) l 0 ++
    [{ led := led, color := color, fade_ms := fade_ms,
       priority := priority, blend := blend }]

/-! ## Flushing (ShowController._update_lights / _update_leds) -/

/-- A recorded Device Facade call made during a flush. -/
inductive FacadeCall where
  | lightOn (light : Nat) (brightness : Nat) (fade_ms : Nat) (priority : Int)
  | ledColor (led : Nat) (color : Nat) (fade_ms : Nat) (priority : Int) (blend : Bool)
  | coilPulse (coil : Nat) (power : Int)
  | giEnable (gi : Nat) (brightness : Nat)
  | flasherFlash (flasher : Nat)
  | eventPost (event : String)
  | bcpTrigger (name : String) (payload : Nat)
deriving DecidableEq, Repr

/-- ShowController._update_lights: every pending record produces a
light.on facade call (with cache=False); there is no priority test in this
loop, the record priority is merely passed along to the facade. -/
def update_lights : List LightRec → List FacadeCall
  | [] => []
  | item :: rest =>
      FacadeCall.lightOn item.light item.brightness item.fade_ms item.priority ::
        update_lights rest

/-- ShowController._update_leds: a pending record produces a led.color facade
call only when its priority is at least the LED's cached priority
(led.state, read through `statePriority`); otherwise it is skipped. -/
def update_leds (statePriority : Nat → Int) : List LedRec → List FacadeCall
  | [] => []
  | item :: rest =>
      if statePriority item.led ≤ item.priority then
        FacadeCall.ledColor item.led item.color item.fade_ms item.priority item.blend ::
          update_leds statePriority rest
      else
        update_leds statePriority rest

/-! ## Shot.advance (src/mpf/devices/shot.py) -/

/-- Shot.advance: returns (advanced?, new state index).  Mirrors the source:
a disabled, unforced shot returns False; at the last state it wraps to 0 when
the profile loops and otherwise returns False leaving the state; otherwise the
state moves up by one. -/
def shot_advance (enabled : Bool) (force : Bool) (loopProfile : Bool)
    (numStates : Nat) (state : Nat) : Bool × Nat :=
  if !enabled && !force then
    (false, state)
  else if numStates ≤ state + 1 then
    if loopProfile then (true, 0)
    else (false, state)
  else
    (true, state + 1)

/-! ## Shot.hit (src/mpf/devices/shot.py) -/

/-- The keyword payload carried by each of the four hit events. -/
structure HitPayload where
  profile : String
  state : String
  advancing : Bool
deriving DecidableEq, Repr

/-- Configuration and state of a shot as far as Shot.hit reads it. -/
structure ShotCtx where
  name : String
  profileName : String
  stateName : String
  enabled : Bool
  activeDelays : List String
  advance_on_hit : Bool
  force : Bool := false
  loopProfile : Bool
  numStates : Nat
  stateIndex : Nat
deriving Repr

/-- Shot.hit: returns the list of (event name, payload) posts, in order.
A disabled shot, or one with a pending delay-switch debounce, posts nothing.
Otherwise `advancing` is the result of Shot.advance when advance_on_hit is
set (False otherwise), and the four granular events are posted with the same
payload. -/
def shot_hit (c : ShotCtx) : List (String × HitPayload) :=
  if !c.enabled then []
  else if c.activeDelays ≠ [] then []
  else
    let state := c.stateName
    let advancing :=
      if c.advance_on_hit then
        (shot_advance c.enabled false c.loopProfile c.numStates c.stateIndex).1
      else false
    let payload : HitPayload :=
      { profile := c.profileName, state := state, advancing := advancing }
    [ (c.name ++ "_hit", payload),
      (c.name ++ "_" ++ c.profileName ++ "_hit", payload),
      (c.name ++ "_" ++ c.profileName ++ "_" ++ state ++ "_hit", payload),
      (c.name ++ "_" ++ state ++ "_hit", payload) ]

/-! ## Running shows: _run_show, _end_show, restore_lower_lights -/

/-- The per-show fields that ShowController._run_show mutates.  `priority`
and `sync_ms` are configuration read by _run_show; `light_states` and
`led_states` are the device ids the show has touched (read by
restore_lower_lights). -/
structure ShowFields where
  priority : Int
  sync_ms : Nat
  ending : Bool
  running : Bool
  current_loop_number : Nat
  next_step_time : Rat
  hold : Bool
  light_states : List Nat
  led_states : List Nat
deriving DecidableEq, Repr

/-- The controller state read and written by _run_show: the ordered
running-show list (show ids), the per-id show fields, and the tick clock. -/
structure RunState where
  running_shows : List Nat
  fields : Nat → ShowFields
  current_tick_time : Rat

/-- ShowController._run_show: a show already in running_shows is left
untouched; otherwise its flags and next_step_time are set and it is appended,
after which the list is re-sorted (stably) ascending by priority. -/
def run_show (st : RunState) (s : Nat) : RunState :=
  if s ∈ st.running_shows then st
  else
    let f := st.fields s
    let nst : Rat :=
      if f.sync_ms ≠ 0 then st.current_tick_time + (f.sync_ms : Rat) / 1000
      else st.current_tick_time
    let f2 : ShowFields :=
      { f with ending := false, running := true, current_loop_number := 0,
               next_step_time := nst }
    let fields2 : Nat → ShowFields := fun n => if n = s then f2 else st.fields n
    { st with
      fields := fields2
      running_shows :=
        (st.running_shows ++ [s]).mergeSort
          (fun a b => decide ((fields2 a).priority ≤ (fields2 b).priority)) }

/-- The facade/restore effects of ending a show: which lights and LEDs were
told to restore(), and which still-running shows were asked to resync(). -/
structure RestoreCalls where
  lightsRestored : List Nat
  ledsRestored : List Nat
  resynced : List Nat
deriving DecidableEq, Repr

/-- ShowController.restore_lower_lights, called with a show argument: restore
every touched light and LED whose cached priority is at most the show's
priority, then resync every running show of strictly lower priority.
`cache` maps a device id to its cached priority; `running` is the
controller's running-show list at call time; the resynced shows are returned
by id. -/
def restore_lower_lights (cache : Nat → Int) (fields : Nat → ShowFields)
    (running : List Nat) (s : Nat) : RestoreCalls :=
  let priority := (fields s).priority
  { lightsRestored := (fields s).light_states.filter (fun d => decide (cache d ≤ priority))
    ledsRestored := (fields s).led_states.filter (fun d => decide (cache d ≤ priority))
    resynced := running.filter (fun o => decide ((fields o).priority < priority)) }

/-- ShowController._end_show (reset handling and callback omitted: the claim
is about restores and resyncs): the show is first removed from
running_shows, then, unless it holds, restore_lower_lights runs against the
already-shrunk running list.  Returns the new running list and the restore
calls made (none when hold is set). -/
def end_show (cache : Nat → Int) (fields : Nat → ShowFields)
    (running : List Nat) (s : Nat) : List Nat × RestoreCalls :=
  let running2 := running.filter (fun x => x ≠ s)
  if !(fields s).hold then
    (running2, restore_lower_lights cache fields running2 s)
  else
    (running2, { lightsRestored := [], ledsRestored := [], resynced := [] })

/-! ## Playlist (show_controller.py class Playlist) -/

/-- The Playlist fields that _advance reads and writes.  `steps` is the
sorted list of step numbers; only its length matters to the advance
arithmetic but it is kept as a list as in the source.  `step_time` and
`trigger_show` model the step_settings entry of every step (the claims use
uniform settings across steps). -/
structure PlaylistS where
  steps : List Nat
  current_step_position : Nat
  repeatFlag : Bool
  repeat_count : Nat
  current_repeat_loop : Nat
  running : Bool
  starting : Bool
  stopping : Bool
  step_time : Nat
  trigger_show : Bool
deriving DecidableEq, Repr

/-- Playlist._advance.  Returns the updated playlist, whether this call
played its current step (reached the action-scheduling section), and the
action_time of the deferred queue entry it appended, if any (the source
appends {playlist, action_time: now + step_time} when the step has a time
and no trigger show).  The stop of the previous step's shows and the play
calls themselves are facade effects outside this state. -/
def playlist_advance (now : Rat) (p : PlaylistS) : PlaylistS × Bool × Option Rat :=
  if !p.running then (p, false, none)
  else
    let p1 := { p with starting := false }
    if p1.stopping then (p1, false, none)
    else
      let sched : Option Rat :=
        if p1.step_time ≠ 0 ∧ !p1.trigger_show then some (now + (p1.step_time : Rat))
        else none
      if p1.current_step_position = p1.steps.length - 1 then
        let p2 := { p1 with current_step_position := 0 }
        if p2.repeatFlag then
          if p2.repeat_count ≠ 0 then
            if p2.current_repeat_loop < p2.repeat_count - 1 then
              ({ p2 with current_repeat_loop := p2.current_repeat_loop + 1 }, true, sched)
            else
              ({ p2 with stopping := true }, true, sched)
          else (p2, true, sched)
        else ({ p2 with stopping := true }, true, sched)
      else
        ({ p1 with current_step_position := p1.current_step_position + 1 }, true, sched)

/-- Iterate playlist_advance `k` times from `p`, counting how many of those
calls played a step. -/
def playlist_advanceN (now : Rat) : Nat → PlaylistS → PlaylistS × Nat
  | 0, p => (p, 0)
  | k + 1, p =>
      let r := playlist_advance now p
      let rest := playlist_advanceN now k r.1
      (rest.1, (if r.2.1 then 1 else 0) + rest.2)

/-- Playlist.start for a playlist that is not running (reset=True): the
counters are zeroed, the flags set, and the repeat policy recorded; start()
then immediately calls _advance once, which is counted separately by the
theorems. -/
def playlist_start (steps : List Nat) (step_time : Nat) (trigger_show : Bool)
    (repeatFlag : Bool) (repeat_count : Nat) : PlaylistS :=
  { steps := steps
    current_step_position := 0
    repeatFlag := repeatFlag
    repeat_count := repeat_count
    current_repeat_loop := 0
    running := true
    starting := true
    stopping := false
    step_time := step_time
    trigger_show := trigger_show }

/-! ## The seven pending collections and _do_update -/

/-- The pending collections of the ShowController.  The Python set-typed
queues (coil, event, gi, flasher) are embedded as lists; adds de-duplicate in
the source, which the emptiness/once-processing claims do not depend on.
A coil entry is (coil id, action name, power); a trigger entry is
(name, payload id). -/
structure Collections where
  light_update_list : List LightRec
  led_update_list : List LedRec
  coil_queue : List (Nat × String × Int)
  event_queue : List String
  gi_queue : List (Nat × Nat)
  flasher_queue : List Nat
  trigger_queue : List (String × Nat)
deriving DecidableEq, Repr

/-- ShowController._fire_coils: only entries whose action is the string
pulse produce a facade pulse call. -/
def fire_coils (q : List (Nat × String × Int)) : List FacadeCall :=
  q.filterMap (fun c => if c.2.1 = "pulse" then some (FacadeCall.coilPulse c.1 c.2.2) else none)

/-- ShowController._fire_events. -/
def fire_events (q : List String) : List FacadeCall :=
  q.map FacadeCall.eventPost

/-- ShowController._update_gis (the controller flush, not the external-show
method of the same name). -/
def update_gis_queue (q : List (Nat × Nat)) : List FacadeCall :=
  q.map (fun g => FacadeCall.giEnable g.1 g.2)

/-- ShowController._update_flashers. -/
def update_flashers_queue (q : List Nat) : List FacadeCall :=
  q.map FacadeCall.flasherFlash

/-- ShowController._fire_triggers. -/
def fire_triggers (q : List (String × Nat)) : List FacadeCall :=
  q.map (fun t => FacadeCall.bcpTrigger t.1 t.2)

/-- ShowController._do_update: flush each non-empty collection in source
order, clearing it; returns the new collections and every facade call made.
`statePriority` is the LED cached-priority map read by _update_leds. -/
def do_update (statePriority : Nat → Int) (c : Collections) :
    Collections × List FacadeCall :=
  let lightCalls := if c.light_update_list ≠ [] then update_lights c.light_update_list else []
  let lights2 : List LightRec := if c.light_update_list ≠ [] then [] else c.light_update_list
  let ledCalls := if c.led_update_list ≠ [] then update_leds statePriority c.led_update_list else []
  let leds2 : List LedRec := if c.led_update_list ≠ [] then [] else c.led_update_list
  let coilCalls := if c.coil_queue ≠ [] then fire_coils c.coil_queue else []
  let coils2 : List (Nat × String × Int) := if c.coil_queue ≠ [] then [] else c.coil_queue
  let eventCalls := if c.event_queue ≠ [] then fire_events c.event_queue else []
  let events2 : List String := if c.event_queue ≠ [] then [] else c.event_queue
  let giCalls := if c.gi_queue ≠ [] then update_gis_queue c.gi_queue else []
  let gis2 : List (Nat × Nat) := if c.gi_queue ≠ [] then [] else c.gi_queue
  let flasherCalls := if c.flasher_queue ≠ [] then update_flashers_queue c.flasher_queue else []
  let flashers2 : List Nat := if c.flasher_queue ≠ [] then [] else c.flasher_queue
  let triggerCalls := if c.trigger_queue ≠ [] then fire_triggers c.trigger_queue else []
  let triggers2 : List (String × Nat) := if c.trigger_queue ≠ [] then [] else c.trigger_queue
  ({ light_update_list := lights2, led_update_list := leds2, coil_queue := coils2,
     event_queue := events2, gi_queue := gis2, flasher_queue := flashers2,
     trigger_queue := triggers2 },
   lightCalls ++ ledCalls ++ coilCalls ++ eventCalls ++ giCalls ++ flasherCalls ++ triggerCalls)

/-! ## The tick (ShowController._tick) and the deferred-action queue -/

/-- The controller state touched by _tick, for the deferred-queue claim: the
pending collections, the time-keyed deferred queue that Playlist._advance
appends to (entries are (playlist id, action_time)), and the playlist
states. -/
structure TickState where
  collections : Collections
  queue : List (Nat × Rat)
  playlists : Nat → PlaylistS
  current_tick_time : Rat

/-- ShowController._tick: reads the clock, ticks every running show and tick
handler (their only effect on this state is enqueuing device updates, here an
arbitrary function on the collections), and flushes via _do_update.  The
block that would service self.queue and call playlist advances is commented
out in the source (a TODO), so the queue and the playlists are not consulted
at all. -/
def tick (statePriority : Nat → Int) (showEffects : Collections → Collections)
    (clockNow : Rat) (st : TickState) : TickState × List FacadeCall :=
  let c1 := showEffects st.collections
  let r := do_update statePriority c1
  ({ st with collections := r.1, current_tick_time := clockNow }, r.2)

/-! ## External shows (class ExternalShow and the frame command) -/

/-- Fuel-indexed body of `chunker`; the fuel only forces structural
termination and `chunker` supplies enough of it that it is never
exhausted. -/
def chunkerF : Nat → Nat → List Char → List (List Char)
  | 0, _, _ => []
  | fuel + 1, n, l =>
    if n = 0 ∨ l.length < n then []
    else l.take n :: chunkerF fuel n (l.drop n)

/-- Modelled from the spec: Util.chunker (mpf/core/utility_functions.py is
not part of the sources given) splits an encoded sequence into successive
fixed-size chunks, one per configured device in list order; per the error
handling design only complete chunks are used and a trailing remainder is
ignored. -/
def chunker (n : Nat) (l : List Char) : List (List Char) :=
  chunkerF l.length n l

/-- The value of one hexadecimal digit character (0 for non-hex input). -/
def hexDigitVal (c : Char) : Nat :=
  if '0' ≤ c ∧ c ≤ '9' then c.toNat - '0'.toNat
  else if 'a' ≤ c ∧ c ≤ 'f' then c.toNat - 'a'.toNat + 10
  else if 'A' ≤ c ∧ c ≤ 'F' then c.toNat - 'A'.toNat + 10
  else 0

/-- Modelled from the spec: Util.hex_string_to_int / RGBColor.hex_to_rgb
(both outside the given sources) decode a fixed-width hex chunk into the
numeric value it encodes (a brightness, or the 24-bit RGB value). -/
def hexToNat (l : List Char) : Nat :=
  l.foldl (fun a c => 16 * a + hexDigitVal c) 0

/-- Configuration of an ExternalShow: its priority and blend flag and the
five per-kind device lists captured at start time. -/
structure ExternalShowCfg where
  priority : Int
  blend : Bool
  leds : List Nat
  lights : List Nat
  flashers : List Nat
  gis : List Nat
  coils : List Nat
deriving DecidableEq, Repr

/-- An enqueue request made against the ShowController by the external-show
frame path. -/
inductive EnqueueReq where
  | led (led : Nat) (color : Nat) (fade_ms : Nat) (priority : Int) (blend : Bool)
  | light (light : Nat) (brightness : Nat) (priority : Int) (blend : Bool)
  | gi (gi : Nat) (brightness : Nat)
  | flasher (flasher : Nat)
  | coil (coil : Nat)
  | event (name : String)
deriving DecidableEq, Repr

namespace ExternalShow

/-- ExternalShow.update_leds: zip the show's led list with 6-char chunks of
the data and enqueue an LED update per pair. -/
def update_leds (cfg : ExternalShowCfg) (data : List Char) : List EnqueueReq :=
  (cfg.leds.zip (chunker 6 data)).map
    (fun p => EnqueueReq.led p.1 (hexToNat p.2) 0 cfg.priority cfg.blend)

/-- ExternalShow.update_lights: zip the show's light list with 2-char chunks
and enqueue a light update per pair. -/
def update_lights (cfg : ExternalShowCfg) (data : List Char) : List EnqueueReq :=
  (cfg.lights.zip (chunker 2 data)).map
    (fun p => EnqueueReq.light p.1 (hexToNat p.2) cfg.priority cfg.blend)

/-- ExternalShow.update_gis as written in the source: it zips self.lights —
the light device list, not self.gis — with 2-char chunks and enqueues GI
updates for those light ids. -/
def update_gis (cfg : ExternalShowCfg) (data : List Char) : List EnqueueReq :=
  (cfg.lights.zip (chunker 2 data)).map
    (fun p => EnqueueReq.gi p.1 (hexToNat p.2))

/-- ExternalShow.update_flashers: zips self.flashers with the raw characters
of the data; in Python each character is a non-empty one-character string and
therefore truthy, so every zipped flasher is enqueued. -/
def update_flashers (cfg : ExternalShowCfg) (data : List Char) : List EnqueueReq :=
  (cfg.flashers.zip data).map (fun p => EnqueueReq.flasher p.1)

/-- ExternalShow.update_coils: same character-wise zip over self.coils. -/
def update_coils (cfg : ExternalShowCfg) (data : List Char) : List EnqueueReq :=
  (cfg.coils.zip data).map (fun p => EnqueueReq.coil p.1)

end ExternalShow

/-- Python truthiness of an optional string argument: None and the empty
string are falsy. -/
def pyTruthy : Option (List Char) → Bool
  | none => false
  | some d => d ≠ []

/-- Python str.split on a single comma: the comma-separated fields of the
character sequence, empty fields included. -/
def splitOnComma : List Char → List (List Char)
  | [] => [[]]
  | c :: rest =>
      match splitOnComma rest with
      | [] => []
      | h :: t => if c = ',' then [] :: h :: t else (c :: h) :: t

/-- ShowController._process_external_show_frame_command: look the show up by
name (unknown names are a silent no-op), then hand each truthy *_data
argument to an update method of the show.  As in the source, flasher_data is
passed to update_gis and gi_data to update_flashers.  The events string is
split on commas and each name enqueued as an event. -/
def process_external_show_frame_command (shows : String → Option ExternalShowCfg)
    (name : String) (led_data light_data flasher_data gi_data coil_data : Option (List Char))
    (events : Option (List Char)) : List EnqueueReq :=
  match shows name with
  | none => []
  | some cfg =>
      (if pyTruthy led_data then ExternalShow.update_leds cfg (led_data.getD []) else []) ++
      (if pyTruthy light_data then ExternalShow.update_lights cfg (light_data.getD []) else []) ++
      (if pyTruthy flasher_data then ExternalShow.update_gis cfg (flasher_data.getD []) else []) ++
      (if pyTruthy gi_data then ExternalShow.update_flashers cfg (gi_data.getD []) else []) ++
      (if pyTruthy coil_data then ExternalShow.update_coils cfg (coil_data.getD []) else []) ++
      (if pyTruthy events then
        (splitOnComma (events.getD [])).map (fun e => EnqueueReq.event (String.mk e))
      else [])

/-! ## Helper lemmas -/

theorem update_lights_eq (l : List LightRec) :
    update_lights l = l.map (fun item =>
      FacadeCall.lightOn item.light item.brightness item.fade_ms item.priority) := by
  induction l with
  | nil => rfl
  | cons a t ih => simp [update_lights, ih]

theorem update_leds_eq (statePriority : Nat → Int) (l : List LedRec) :
    update_leds statePriority l =
      (l.filter (fun item => decide (statePriority item.led ≤ item.priority))).map
        (fun item =>
          FacadeCall.ledColor item.led item.color item.fade_ms item.priority item.blend) := by
  induction l with
  | nil => rfl
  | cons a t ih =>
      by_cases h : statePriority a.led ≤ a.priority <;>
        simp [update_leds, List.filter_cons, h, ih]

theorem ite_nonempty_empty {β : Type} [DecidableEq β] (l : List β) :
    (if l ≠ [] then ([] : List β) else l) = [] := by
  by_cases h : l = [] <;> simp [h]

/-! ## C1 -/

/-- C1 (amended): at flush time a pending LED record produces a led.color
facade call iff its priority is at least the LED's cached priority, while a
pending light record always produces a light.on facade call, whatever its
priority relative to the light's cache (the record's priority is merely
passed to the facade). -/
theorem c1_flush_priority_gate (statePriority : Nat → Int)
    (lights : List LightRec) (leds : List LedRec) :
    update_lights lights = lights.map (fun item =>
      FacadeCall.lightOn item.light item.brightness item.fade_ms item.priority) ∧
    update_leds statePriority leds =
      (leds.filter (fun item => decide (statePriority item.led ≤ item.priority))).map
        (fun item =>
          FacadeCall.ledColor item.led item.color item.fade_ms item.priority item.blend) ∧
    ∀ item ∈ leds,
      (FacadeCall.ledColor item.led item.color item.fade_ms item.priority item.blend ∈
          update_leds statePriority leds ↔ statePriority item.led ≤ item.priority) := by
  refine ⟨update_lights_eq lights, update_leds_eq statePriority leds, ?_⟩
  intro item hmem
  rw [update_leds_eq]
  constructor
  · intro hcall
    simp only [List.mem_map, List.mem_filter, FacadeCall.ledColor.injEq] at hcall
    obtain ⟨x, ⟨hx, hxp⟩, hled, hcol, hfade, hpri, hblend⟩ := hcall
    rw [← hled, ← hpri]
    exact of_decide_eq_true hxp
  · intro hgate
    exact List.mem_map.mpr ⟨item, List.mem_filter.mpr ⟨hmem, decide_eq_true hgate⟩, rfl⟩

/-- C1 counterexample: a light record whose priority (0) is strictly below
the light's cached priority (5) still produces a light.on facade call, so
the claimed only-if direction fails for lights. -/
theorem c1_counterexample :
    (({ light := 0, brightness := 255, fade_ms := 0, priority := 0,
        blend := false } : LightRec).priority < (fun _ : Nat => (5 : Int)) 0) ∧
    FacadeCall.lightOn 0 255 0 0 ∈
      update_lights [{ light := 0, brightness := 255, fade_ms := 0, priority := 0,
                       blend := false }] := by
  decide

/-- C1 witness: a LED record at priority 5 against cached priority 3 passes
the gate and its facade call is emitted. -/
theorem c1_flush_priority_gate_witness :
    FacadeCall.ledColor 0 7 0 5 true ∈
      update_leds (fun _ => (3 : Int))
        [{ led := 0, color := 7, fade_ms := 0, priority := 5, blend := true }] :=
  ((c1_flush_priority_gate (fun _ => (3 : Int)) []
      [{ led := 0, color := 7, fade_ms := 0, priority := 5, blend := true }]).2.2
    { led := 0, color := 7, fade_ms := 0, priority := 5, blend := true }
    (by decide)).mpr (by decide)

/-! ## C8 -/

/-- C8: Shot.advance is a no-op returning False when the shot is disabled and
not forced; otherwise below the last state it steps to state+1, and at the
last state it wraps to 0 when the profile loops and returns False with the
state unchanged when it does not. -/
theorem c8_shot_advance (enabled force loopProfile : Bool) (numStates state : Nat)
    (hstate : state < numStates) :
    (enabled = false ∧ force = false →
       shot_advance enabled force loopProfile numStates state = (false, state)) ∧
    (enabled = true ∨ force = true →
       (state < numStates - 1 →
          shot_advance enabled force loopProfile numStates state = (true, state + 1)) ∧
       (state = numStates - 1 →
          (loopProfile = true →
             shot_advance enabled force loopProfile numStates state = (true, 0)) ∧
          (loopProfile = false →
             shot_advance enabled force loopProfile numStates state = (false, state)))) := by
  unfold shot_advance
  constructor
  · rintro ⟨he, hf⟩
    subst he; subst hf
    simp
  · intro h
    have hguard : (!enabled && !force) = false := by
      rcases h with h | h <;> simp [h]
    refine ⟨?_, ?_⟩
    · intro hlt
      have hle : ¬ numStates ≤ state + 1 := by omega
      simp [hguard, hle]
    · intro heq
      have hle : numStates ≤ state + 1 := by omega
      constructor <;> intro hl <;> simp [hguard, hle, hl]

/-- C8 witness: a 3-state looping profile at state 2 advances to state 0;
the same profile without loop refuses and stays at state 2. -/
theorem c8_shot_advance_witness :
    shot_advance true false true 3 2 = (true, 0) ∧
    shot_advance true false false 3 2 = (false, 2) :=
  ⟨((c8_shot_advance true false true 3 2 (by decide)).2 (Or.inl rfl)).2 (by decide) |>.1 rfl,
   ((c8_shot_advance true false false 3 2 (by decide)).2 (Or.inl rfl)).2 (by decide) |>.2 rfl⟩

/-! ## C5 -/

/-- C5: ending a show without hold restores exactly the touched lights and
LEDs whose cached priority is at most the show's priority, and resyncs
exactly the shows remaining in the running list whose priority is strictly
below the ending show's; higher-cached devices and equal-or-higher-priority
shows are untouched, and the ending show itself has left the running list. -/
theorem c5_end_show_restores (cache : Nat → Int) (fields : Nat → ShowFields)
    (running : List Nat) (s : Nat) (hhold : (fields s).hold = false) :
    (∀ d, d ∈ (end_show cache fields running s).2.lightsRestored ↔
       d ∈ (fields s).light_states ∧ cache d ≤ (fields s).priority) ∧
    (∀ d, d ∈ (end_show cache fields running s).2.ledsRestored ↔
       d ∈ (fields s).led_states ∧ cache d ≤ (fields s).priority) ∧
    (∀ o, o ∈ (end_show cache fields running s).2.resynced ↔
       o ∈ (end_show cache fields running s).1 ∧ (fields o).priority < (fields s).priority) ∧
    (∀ o, o ∈ (end_show cache fields running s).1 ↔ o ∈ running ∧ o ≠ s) := by
  simp [end_show, restore_lower_lights, hhold, List.mem_filter]
  tauto

/-- C5 witness: show 7 (priority 10, touched light 1 cached at 4, touched
LED 2 cached at 11) ends with show 3 (priority 2) still running: light 1 is
restored, LED 2 is not, and show 3 is resynced. -/
theorem c5_end_show_restores_witness :
    (1 ∈ (end_show (fun d => if d = 2 then 11 else 4)
      (fun n => if n = 7 then
        { priority := 10, sync_ms := 0, ending := false, running := true,
          current_loop_number := 0, next_step_time := 0, hold := false,
          light_states := [1], led_states := [2] }
       else
        { priority := 2, sync_ms := 0, ending := false, running := true,
          current_loop_number := 0, next_step_time := 0, hold := false,
          light_states := [], led_states := [] })
      [7, 3] 7).2.lightsRestored) ∧
    (2 ∉ (end_show (fun d => if d = 2 then 11 else 4)
      (fun n => if n = 7 then
        { priority := 10, sync_ms := 0, ending := false, running := true,
          current_loop_number := 0, next_step_time := 0, hold := false,
          light_states := [1], led_states := [2] }
       else
        { priority := 2, sync_ms := 0, ending := false, running := true,
          current_loop_number := 0, next_step_time := 0, hold := false,
          light_states := [], led_states := [] })
      [7, 3] 7).2.ledsRestored) ∧
    (3 ∈ (end_show (fun d => if d = 2 then 11 else 4)
      (fun n => if n = 7 then
        { priority := 10, sync_ms := 0, ending := false, running := true,
          current_loop_number := 0, next_step_time := 0, hold := false,
          light_states := [1], led_states := [2] }
       else
        { priority := 2, sync_ms := 0, ending := false, running := true,
          current_loop_number := 0, next_step_time := 0, hold := false,
          light_states := [], led_states := [] })
      [7, 3] 7).2.resynced) := by
  refine ⟨?_, ?_, ?_⟩
  · exact ((c5_end_show_restores _ _ [7, 3] 7 (by decide)).1 1).mpr (by decide)
  · intro hmem
    have h2 := ((c5_end_show_restores _ _ [7, 3] 7 (by decide)).2.1 2).mp hmem
    revert h2
    decide
  · exact ((c5_end_show_restores _ _ [7, 3] 7 (by decide)).2.2.1 3).mpr (by decide)

/-! ## C10 -/

theorem update_lights_length (l : List LightRec) :
    (update_lights l).length = l.length := by
  rw [update_lights_eq]; simp

theorem update_leds_length (statePriority : Nat → Int) (l : List LedRec) :
    (update_leds statePriority l).length ≤ l.length := by
  rw [update_leds_eq]
  simpa using List.length_filter_le _ l

/-- C10: whatever the seven pending collections hold when the tick flushes,
_do_update leaves all seven empty, and the number of facade calls it makes is
bounded by the number of pending items, so nothing pending is processed more
than once in the tick that flushes it. -/
theorem c10_do_update_drains (statePriority : Nat → Int) (c : Collections) :
    ((do_update statePriority c).1.light_update_list = [] ∧
     (do_update statePriority c).1.led_update_list = [] ∧
     (do_update statePriority c).1.coil_queue = [] ∧
     (do_update statePriority c).1.event_queue = [] ∧
     (do_update statePriority c).1.gi_queue = [] ∧
     (do_update statePriority c).1.flasher_queue = [] ∧
     (do_update statePriority c).1.trigger_queue = []) ∧
    (do_update statePriority c).2.length ≤
      c.light_update_list.length + c.led_update_list.length + c.coil_queue.length +
      c.event_queue.length + c.gi_queue.length + c.flasher_queue.length +
      c.trigger_queue.length := by
  constructor
  · simp [do_update, ite_nonempty_empty]
  · have h1 : (if c.light_update_list ≠ [] then update_lights c.light_update_list
        else []).length ≤ c.light_update_list.length := by
      by_cases h : c.light_update_list = [] <;> simp [h, update_lights_length]
    have h2 : (if c.led_update_list ≠ [] then update_leds statePriority c.led_update_list
        else []).length ≤ c.led_update_list.length := by
      by_cases h : c.led_update_list = [] <;> simp [h, update_leds_length]
    have h3 : (if c.coil_queue ≠ [] then fire_coils c.coil_queue
        else []).length ≤ c.coil_queue.length := by
      by_cases h : c.coil_queue = [] <;> simp [h, fire_coils]
      exact List.length_filterMap_le _ _
    have h4 : (if c.event_queue ≠ [] then fire_events c.event_queue
        else []).length ≤ c.event_queue.length := by
      by_cases h : c.event_queue = [] <;> simp [h, fire_events]
    have h5 : (if c.gi_queue ≠ [] then update_gis_queue c.gi_queue
        else []).length ≤ c.gi_queue.length := by
      by_cases h : c.gi_queue = [] <;> simp [h, update_gis_queue]
    have h6 : (if c.flasher_queue ≠ [] then update_flashers_queue c.flasher_queue
        else []).length ≤ c.flasher_queue.length := by
      by_cases h : c.flasher_queue = [] <;> simp [h, update_flashers_queue]
    have h7 : (if c.trigger_queue ≠ [] then fire_triggers c.trigger_queue
        else []).length ≤ c.trigger_queue.length := by
      by_cases h : c.trigger_queue = [] <;> simp [h, fire_triggers]
    simp only [do_update, List.length_append]
    omega

/-! ## C4 -/

/-- C4 (divergence evidence): Playlist._advance on a running,
non-stopping step with a time and no trigger show does append a deferred
entry keyed now + duration, but ShowController._tick never services the
deferred queue: the tick, under arbitrary enqueue effects of the running
shows, leaves the queue and every playlist state exactly as they were, so
the deferred action never invokes _advance. -/
theorem c4_tick_never_services_deferred_queue (statePriority : Nat → Int)
    (showEffects : Collections → Collections) (clockNow : Rat) (st : TickState)
    (now : Rat) (p : PlaylistS) (hrun : p.running = true) (hstop : p.stopping = false)
    (ht : p.step_time ≠ 0) (htr : p.trigger_show = false) :
    (tick statePriority showEffects clockNow st).1.queue = st.queue ∧
    (tick statePriority showEffects clockNow st).1.playlists = st.playlists ∧
    (playlist_advance now p).2.2 = some (now + (p.step_time : Rat)) := by
  refine ⟨rfl, rfl, ?_⟩
  unfold playlist_advance
  simp [hrun, hstop, ht, htr]
  split_ifs <;> rfl

/-- C4 witness: a concrete one-step playlist with duration 5 schedules an
entry at 5 and a tick at time 9 leaves the deferred queue untouched. -/
theorem c4_tick_never_services_deferred_queue_witness :
    (tick (fun _ => 0) id 9
      { collections := { light_update_list := [], led_update_list := [], coil_queue := [],
                         event_queue := [], gi_queue := [], flasher_queue := [],
                         trigger_queue := [] },
        queue := [(0, 5)],
        playlists := fun _ => playlist_start [1] 5 false false 0,
        current_tick_time := 0 }).1.queue = [(0, 5)] ∧
    (playlist_advance 0 (playlist_start [1] 5 false false 0)).2.2 = some 5 := by
  have h := c4_tick_never_services_deferred_queue (fun _ => 0) id 9
    { collections := { light_update_list := [], led_update_list := [], coil_queue := [],
                       event_queue := [], gi_queue := [], flasher_queue := [],
                       trigger_queue := [] },
      queue := [(0, 5)],
      playlists := fun _ => playlist_start [1] 5 false false 0,
      current_tick_time := 0 }
    0 (playlist_start [1] 5 false false 0) rfl rfl (by decide) rfl
  refine ⟨h.1, ?_⟩
  rw [h.2.2]
  norm_num [playlist_start]

/-! ## C3 -/

/-- C3 (divergence evidence): with an external show configured with light 10,
flasher 20 and GI 30, a frame carrying only gi_data enqueues a flasher flash
for device 20 and no GI update at all, and a frame carrying only
flasher_data enqueues a GI update for light device 10: each *_data field is
routed to the wrong kind (gi_data to update_flashers, flasher_data to
update_gis, which itself iterates the light list). -/
theorem c3_frame_routing_defect :
    (process_external_show_frame_command
      (fun nm => if nm = "ext" then some
        { priority := 0, blend := true, leds := [], lights := [10], flashers := [20],
          gis := [30], coils := [] } else none)
      "ext" none none none (some ['f', 'f']) none none = [EnqueueReq.flasher 20]) ∧
    (process_external_show_frame_command
      (fun nm => if nm = "ext" then some
        { priority := 0, blend := true, leds := [], lights := [10], flashers := [20],
          gis := [30], coils := [] } else none)
      "ext" none none (some ['f', 'f']) none none none = [EnqueueReq.gi 10 255]) := by
  decide

/-! ## C2: lemmas about the remove-while-iterating loop -/

theorem pyRemoveLoopF_sublist {α : Type} [DecidableEq α] (cond : α → Bool) :
    ∀ (fuel : Nat) (l : List α) (i : Nat), (pyRemoveLoopF cond fuel l i).Sublist l := by
  intro fuel
  induction fuel with
  | zero => intro l i; exact List.Sublist.refl l
  | succ f ih =>
      intro l i
      simp only [pyRemoveLoopF]
      split
      · split
        · exact (ih _ _).trans (List.erase_sublist _ _)
        · exact ih _ _
      · exact List.Sublist.refl l

theorem pyRemoveLoopF_count_eq {α : Type} [DecidableEq α] (cond : α → Bool) (r : α)
    (hr : cond r = false) :
    ∀ (fuel : Nat) (l : List α) (i : Nat),
      (pyRemoveLoopF cond fuel l i).count r = l.count r := by
  intro fuel
  induction fuel with
  | zero => intro l i; rfl
  | succ f ih =>
      intro l i
      simp only [pyRemoveLoopF]
      split
      · rename_i h
        split
        · rename_i hc
          rw [ih]
          have hne : r ≠ l.get ⟨i, h⟩ := by
            intro he
            rw [← he, hr] at hc
            cases hc
          exact List.count_erase_of_ne hne l
        · exact ih l (i + 1)
      · rfl

theorem two_cond_members {α : Type} [DecidableEq α] {cond : α → Bool} {l : List α}
    {a b : α} (ha : a ∈ l) (hb : b ∈ l) (hab : a ≠ b)
    (hca : cond a = true) (hcb : cond b = true) : 2 ≤ l.countP cond := by
  rw [List.countP_eq_length_filter]
  have ha2 : a ∈ l.filter cond := List.mem_filter.mpr ⟨ha, hca⟩
  have hb2 : b ∈ l.filter cond := List.mem_filter.mpr ⟨hb, hcb⟩
  have hb3 : b ∈ (l.filter cond).erase a := (List.mem_erase_of_ne hab.symm).mpr hb2
  have h1 : 1 ≤ ((l.filter cond).erase a).length :=
    List.length_pos.mpr (List.ne_nil_of_mem hb3)
  have h2 := List.length_erase_of_mem ha2
  have h3 : 1 ≤ (l.filter cond).length :=
    List.length_pos.mpr (List.ne_nil_of_mem ha2)
  omega

theorem count_le_countP {α : Type} [DecidableEq α] {cond : α → Bool} {l : List α}
    {r : α} (hc : cond r = true) : l.count r ≤ l.countP cond := by
  have : l.count r = l.countP (fun x => x == r) := rfl
  rw [this]
  refine List.countP_mono_left (fun x _ hx => ?_)
  have hxr : x = r := by simpa using hx
  rw [hxr]
  exact hc

theorem pyRemoveLoopF_not_mem {α : Type} [DecidableEq α] (cond : α → Bool) (r : α)
    (hc : cond r = true) :
    ∀ (fuel : Nat) (l : List α) (i : Nat), l.length - i ≤ fuel →
      l.countP cond ≤ 1 → r ∈ l.drop i → r ∉ pyRemoveLoopF cond fuel l i := by
  intro fuel
  induction fuel with
  | zero =>
      intro l i hfuel hcount hmem
      have hle : l.length ≤ i := by omega
      rw [List.drop_eq_nil_of_le hle] at hmem
      cases hmem
  | succ f ih =>
      intro l i hfuel hcount hmem
      simp only [pyRemoveLoopF]
      split
      · rename_i h
        split
        · rename_i hci
          by_cases hir : l.get ⟨i, h⟩ = r
          · rw [hir]
            intro hmem2
            have hsub := pyRemoveLoopF_sublist cond f (l.erase r) (i + 1)
            have hre : r ∈ l.erase r := hsub.subset hmem2
            have hrl : r ∈ l := List.drop_subset i l hmem
            have h1 : l.count r ≤ l.countP cond := count_le_countP hc
            have h2 : 1 ≤ l.count r := List.count_pos_iff.mpr hrl
            have h3 : 1 ≤ (l.erase r).count r := List.count_pos_iff.mpr hre
            have h4 := List.count_erase_self r l
            omega
          · exfalso
            have hrl : r ∈ l := List.drop_subset i l hmem
            have hil : l.get ⟨i, h⟩ ∈ l := l.get_mem i h
            have h2 := two_cond_members hil hrl hir hci hc
            omega
        · rename_i hci
          apply ih l (i + 1) (by omega) hcount
          have hdrop := List.drop_eq_getElem_cons h
          rw [List.get_eq_getElem] at hci
          rw [hdrop] at hmem
          rcases List.mem_cons.mp hmem with he | hm
          · exact absurd (he ▸ hc) hci
          · exact hm
      · rename_i h
        have hle : l.length ≤ i := by omega
        rw [List.drop_eq_nil_of_le hle] at hmem
        cases hmem

theorem pyAdd_count_of_not_cond {α : Type} [DecidableEq α] (cond : α → Bool)
    (l : List α) (new : α) (r : α) (hcr : cond r = false) (hnew : new ≠ r) :
    (pyRemoveLoop cond l 0 ++ [new]).count r = l.count r := by
  rw [List.count_append, pyRemoveLoop, pyRemoveLoopF_count_eq cond r hcr]
  simp [List.count_singleton, hnew]

theorem pyAdd_mem_iff {α : Type} [DecidableEq α] (cond : α → Bool)
    (l : List α) (new : α) (r : α) (hcount : l.countP cond ≤ 1) (hr : r ∈ l)
    (hnew : r ≠ new) :
    r ∈ pyRemoveLoop cond l 0 ++ [new] ↔ cond r = false := by
  constructor
  · intro hmem
    by_contra hcf
    have hct : cond r = true := by
      cases hcc : cond r
      · exact absurd hcc hcf
      · rfl
    rcases List.mem_append.mp hmem with hm | hm
    · exact pyRemoveLoopF_not_mem cond r hct (l.length - 0) l 0 (le_refl _) hcount
        (by simpa using hr) hm
    · rw [List.mem_singleton] at hm
      exact hnew hm
  · intro hcf
    refine List.mem_append.mpr (Or.inl ?_)
    have hce := pyRemoveLoopF_count_eq cond r hcf (l.length - 0) l 0
    have h2 : 1 ≤ l.count r := List.count_pos_iff.mpr hr
    rw [pyRemoveLoop]
    apply List.count_pos_iff.mp
    omega

/-- C2 (amended): an insert into a pending light or LED batch never removes
a pending record of strictly higher priority (its count is preserved), and
when the batch holds at most one record for the target device, a distinct
prior record for that device survives the insert exactly when its priority is
strictly higher than the new one's; the batch may however come to hold more
than one record for a device (counterexample), since a higher-priority
survivor coexists with the appended lower-priority record. -/
theorem c2_pending_batch_per_device
    (fade_ms : Nat) (priority : Int) (blend : Bool)
    (l : List LightRec) (light brightness : Nat) (r : LightRec)
    (ll : List LedRec) (led color : Nat) (rr : LedRec) :
    (priority < r.priority →
       (add_to_light_update_list l light brightness fade_ms priority blend).count r =
         l.count r) ∧
    (l.countP (fun x => x.light == light) ≤ 1 → r ∈ l → r.light = light →
       r ≠ { light := light, brightness := brightness, fade_ms := fade_ms,
             priority := priority, blend := blend } →
       (r ∈ add_to_light_update_list l light brightness fade_ms priority blend ↔
          priority < r.priority)) ∧
    (priority < rr.priority →
       (add_to_led_update_list ll led color fade_ms priority blend).count rr =
         ll.count rr) ∧
    (ll.countP (fun x => x.led == led) ≤ 1 → rr ∈ ll → rr.led = led →
       rr ≠ { led := led, color := color, fade_ms := fade_ms,
              priority := priority, blend := blend } →
       (rr ∈ add_to_led_update_list ll led color fade_ms priority blend ↔
          priority < rr.priority)) := by
  refine ⟨?_, ?_, ?_, ?_⟩
  · intro hp
    have hcr : (fun item : LightRec =>
        item.light == light && decide (item.priority ≤ priority)) r = false := by
      have hnle : ¬ (r.priority ≤ priority) := not_le.mpr hp
      simp [hnle]
    have hnew : (⟨light, brightness, fade_ms, priority, blend⟩ : LightRec) ≠ r := by
      intro he
      rw [← he] at hp
      exact lt_irrefl _ hp
    exact pyAdd_count_of_not_cond _ l _ r hcr hnew
  · intro hcount hr hlight hne
    have hc2 : l.countP (fun item : LightRec =>
        item.light == light && decide (item.priority ≤ priority)) ≤ 1 := by
      refine le_trans (List.countP_mono_left (fun x _ hx => ?_)) hcount
      exact ((Bool.and_eq_true _ _).mp hx).1
    rw [show add_to_light_update_list l light brightness fade_ms priority blend =
      pyRemoveLoop (fun item : LightRec =>
        item.light == light && decide (item.priority ≤ priority)) l 0 ++
        [{ light := light, brightness := brightness, fade_ms := fade_ms,
           priority := priority, blend := blend }] from rfl]
    rw [pyAdd_mem_iff _ l _ r hc2 hr hne]
    simp [hlight, not_le]
  · intro hp
    have hcr : (fun item : LedRec =>
        item.led == led && decide (item.priority ≤ priority)) rr = false := by
      have hnle : ¬ (rr.priority ≤ priority) := not_le.mpr hp
      simp [hnle]
    have hnew : (⟨led, color, fade_ms, priority, blend⟩ : LedRec) ≠ rr := by
      intro he
      rw [← he] at hp
      exact lt_irrefl _ hp
    exact pyAdd_count_of_not_cond _ ll _ rr hcr hnew
  · intro hcount hr hled hne
    have hc2 : ll.countP (fun item : LedRec =>
        item.led == led && decide (item.priority ≤ priority)) ≤ 1 := by
      refine le_trans (List.countP_mono_left (fun x _ hx => ?_)) hcount
      exact ((Bool.and_eq_true _ _).mp hx).1
    rw [show add_to_led_update_list ll led color fade_ms priority blend =
      pyRemoveLoop (fun item : LedRec =>
        item.led == led && decide (item.priority ≤ priority)) ll 0 ++
        [{ led := led, color := color, fade_ms := fade_ms,
           priority := priority, blend := blend }] from rfl]
    rw [pyAdd_mem_iff _ ll _ rr hc2 hr hne]
    simp [hled, not_le]

/-- C2 counterexample: two successive light inserts for device 0, first at
priority 5 then at priority 3, leave two pending records for device 0 (the
lower-priority insert does not remove the higher-priority record but is
still appended), violating the at-most-one-record-per-device part of the
claim. -/
theorem c2_counterexample :
    (add_to_light_update_list (add_to_light_update_list [] 0 10 0 5 true)
        0 20 0 3 true).countP (fun x => x.light == 0) = 2 := by
  decide

/-- C2 witness: inserting at priority 7 over a sole pending record for the
same light at priority 5 removes that record. -/
theorem c2_pending_batch_per_device_witness :
    ({ light := 0, brightness := 9, fade_ms := 0, priority := 5, blend := true } : LightRec) ∉
      add_to_light_update_list
        [{ light := 0, brightness := 9, fade_ms := 0, priority := 5, blend := true }]
        0 12 0 7 true := fun hmem =>
  absurd (((c2_pending_batch_per_device 0 7 true
      [{ light := 0, brightness := 9, fade_ms := 0, priority := 5, blend := true }] 0 12
      { light := 0, brightness := 9, fade_ms := 0, priority := 5, blend := true }
      [] 0 0 { led := 0, color := 0, fade_ms := 0, priority := 0, blend := true }).2.1
      (by decide) (by decide) rfl (by decide)).mp hmem) (by decide)

/-! ## C9 -/

theorem run_show_preserves (st : RunState) (s t : Nat)
    (hc : st.running_shows.count s = 1) :
    (run_show st t).running_shows.count s = 1 ∧
    (run_show st t).fields s = st.fields s := by
  unfold run_show
  by_cases hmem : t ∈ st.running_shows
  · simp [hmem, hc]
  · have hts : t ≠ s := by
      intro he
      exact hmem (he ▸ List.count_pos_iff.mp (by omega))
    rw [if_neg hmem]
    constructor
    · simp only []
      rw [(List.mergeSort_perm _ _).count_eq, List.count_append]
      simp [List.count_singleton, hts, hc]
    · simp [Ne.symm hts]

theorem foldl_run_show_preserves (s : Nat) (calls : List Nat) :
    ∀ (st : RunState), st.running_shows.count s = 1 →
      (calls.foldl run_show st).running_shows.count s = 1 ∧
      (calls.foldl run_show st).fields s = st.fields s := by
  induction calls with
  | nil => intro st hst; exact ⟨hst, rfl⟩
  | cons t rest ih =>
      intro st hst
      have hstep := run_show_preserves st s t hst
      have hrest := ih (run_show st t) hstep.1
      exact ⟨hrest.1, hrest.2.trans hstep.2⟩

/-- C9: starting a show that is already running is a no-op.  After _run_show
inserts a show, any further sequence of _run_show calls (including repeats
for the same show) leaves its membership count in running_shows at exactly 1
and leaves its fields (running flag, loop counter, next_step_time) exactly
as the first call set them. -/
theorem c9_run_show_idempotent (st : RunState) (s : Nat) (calls : List Nat)
    (h : s ∉ st.running_shows) :
    (calls.foldl run_show (run_show st s)).running_shows.count s = 1 ∧
    (calls.foldl run_show (run_show st s)).fields s = (run_show st s).fields s := by
  have h1 : (run_show st s).running_shows.count s = 1 := by
    unfold run_show
    rw [if_neg h]
    simp only []
    rw [(List.mergeSort_perm _ _).count_eq, List.count_append]
    simp [List.count_singleton, List.count_eq_zero_of_not_mem h]
  exact foldl_run_show_preserves s calls (run_show st s) h1

/-- C9 witness: on an empty controller, running show 5, then again show 5 and
another show 6, leaves one membership for 5. -/
theorem c9_run_show_idempotent_witness :
    ([5, 6].foldl run_show (run_show
      { running_shows := [],
        fields := fun _ =>
          { priority := 0, sync_ms := 0, ending := false, running := false,
            current_loop_number := 0, next_step_time := 0, hold := false,
            light_states := [], led_states := [] },
        current_tick_time := 0 } 5)).running_shows.count 5 = 1 :=
  (c9_run_show_idempotent
    { running_shows := [],
      fields := fun _ =>
        { priority := 0, sync_ms := 0, ending := false, running := false,
          current_loop_number := 0, next_step_time := 0, hold := false,
          light_states := [], led_states := [] },
      current_tick_time := 0 } 5 [5, 6] (by simp)).1

/-! ## C7 -/

theorem string_ne_of_length_ne {a b : String} (h : a.length ≠ b.length) : a ≠ b :=
  fun he => h (he ▸ rfl)

theorem hit_names_nodup (n : String) {p s : String} (hps : p ≠ s) :
    [n ++ "_hit", n ++ "_" ++ p ++ "_hit", n ++ "_" ++ p ++ "_" ++ s ++ "_hit",
      n ++ "_" ++ s ++ "_hit"].Nodup := by
  have h1 : "_".length = 1 := rfl
  have h2 : "_hit".length = 4 := rfl
  have hlen : ∀ a b : String, a.length ≠ b.length → a ≠ b := fun a b => string_ne_of_length_ne
  have h24 : n ++ "_" ++ p ++ "_hit" ≠ n ++ "_" ++ s ++ "_hit" := by
    intro he
    apply hps
    have hd := congrArg String.data he
    simp at hd
    exact String.ext hd
  have h12 : n ++ "_hit" ≠ n ++ "_" ++ p ++ "_hit" := by
    apply string_ne_of_length_ne
    simp [String.length_append, h1, h2]
    omega
  have h13 : n ++ "_hit" ≠ n ++ "_" ++ p ++ "_" ++ s ++ "_hit" := by
    apply string_ne_of_length_ne
    simp [String.length_append, h1, h2]
    omega
  have h14 : n ++ "_hit" ≠ n ++ "_" ++ s ++ "_hit" := by
    apply string_ne_of_length_ne
    simp [String.length_append, h1, h2]
    omega
  have h23 : n ++ "_" ++ p ++ "_hit" ≠ n ++ "_" ++ p ++ "_" ++ s ++ "_hit" := by
    apply string_ne_of_length_ne
    simp [String.length_append, h1, h2]
    omega
  have h34 : n ++ "_" ++ p ++ "_" ++ s ++ "_hit" ≠ n ++ "_" ++ s ++ "_hit" := by
    apply string_ne_of_length_ne
    simp [String.length_append, h1, h2]
    omega
  simp [h12, h13, h14, h23, h24, h34]

/-- C7 (amended): a hit on an enabled shot with no pending delay-switch
debounce posts exactly four events, in order the shot, shot+profile,
shot+profile+state and shot+state variants, all carrying one identical
(profile, state, advancing) payload, whatever the advance outcome was; the
four event names are pairwise distinct provided the profile name differs
from the state name (when they coincide the shot+profile and shot+state
names collapse, see the counterexample). -/
theorem c7_hit_notifications (c : ShotCtx) (hen : c.enabled = true)
    (hdel : c.activeDelays = []) (hps : c.profileName ≠ c.stateName) :
    ∃ advancing : Bool,
      shot_hit c =
        [ (c.name ++ "_hit",
            { profile := c.profileName, state := c.stateName, advancing := advancing }),
          (c.name ++ "_" ++ c.profileName ++ "_hit",
            { profile := c.profileName, state := c.stateName, advancing := advancing }),
          (c.name ++ "_" ++ c.profileName ++ "_" ++ c.stateName ++ "_hit",
            { profile := c.profileName, state := c.stateName, advancing := advancing }),
          (c.name ++ "_" ++ c.stateName ++ "_hit",
            { profile := c.profileName, state := c.stateName, advancing := advancing }) ] ∧
      ((shot_hit c).map Prod.fst).Nodup := by
  have heq : shot_hit c =
      [ (c.name ++ "_hit",
          { profile := c.profileName, state := c.stateName,
            advancing := if c.advance_on_hit then
              (shot_advance c.enabled false c.loopProfile c.numStates c.stateIndex).1
            else false }),
        (c.name ++ "_" ++ c.profileName ++ "_hit",
          { profile := c.profileName, state := c.stateName,
            advancing := if c.advance_on_hit then
              (shot_advance c.enabled false c.loopProfile c.numStates c.stateIndex).1
            else false }),
        (c.name ++ "_" ++ c.profileName ++ "_" ++ c.stateName ++ "_hit",
          { profile := c.profileName, state := c.stateName,
            advancing := if c.advance_on_hit then
              (shot_advance c.enabled false c.loopProfile c.numStates c.stateIndex).1
            else false }),
        (c.name ++ "_" ++ c.stateName ++ "_hit",
          { profile := c.profileName, state := c.stateName,
            advancing := if c.advance_on_hit then
              (shot_advance c.enabled false c.loopProfile c.numStates c.stateIndex).1
            else false }) ] := by
    simp [shot_hit, hen, hdel]
  refine ⟨_, heq, ?_⟩
  rw [heq]
  simp only [List.map_cons, List.map_nil]
  exact hit_names_nodup c.name hps

/-- An enabled shot whose profile name and current state name coincide. -/
def shotSameNames : ShotCtx :=
  { name := "s", profileName := "a", stateName := "a", enabled := true,
    activeDelays := [], advance_on_hit := false, loopProfile := false,
    numStates := 1, stateIndex := 0 }

/-- An enabled shot whose profile name and current state name differ. -/
def shotDistinctNames : ShotCtx :=
  { name := "s", profileName := "a", stateName := "b", enabled := true,
    activeDelays := [], advance_on_hit := true, loopProfile := true,
    numStates := 2, stateIndex := 0 }

/-- C7 counterexample: when the profile name equals the current state name
(both a here), a hit still posts 4 events but only 3 distinct event names,
because the shot+profile and shot+state variants collapse to the same
string; the claim's exactly-4-distinct-names assertion fails. -/
theorem c7_counterexample :
    (shot_hit shotSameNames).length = 4 ∧
    ¬ ((shot_hit shotSameNames).map Prod.fst).Nodup := by
  decide

/-- C7 witness: a concrete hit posts 4 pairwise-distinct event names. -/
theorem c7_hit_notifications_witness :
    ((shot_hit shotDistinctNames).map Prod.fst).Nodup := by
  obtain ⟨adv, heq, hnodup⟩ :=
    c7_hit_notifications shotDistinctNames rfl rfl (by decide)
  exact hnodup

/-! ## C6: playlist advance arithmetic -/

theorem mod_div_succ (k s : Nat) (hs : 0 < s) :
    (k % s = s - 1 → (k + 1) % s = 0 ∧ (k + 1) / s = k / s + 1) ∧
    (k % s ≠ s - 1 → (k + 1) % s = k % s + 1 ∧ (k + 1) / s = k / s) := by
  have hdm := Nat.div_add_mod k s
  have hml : k % s < s := Nat.mod_lt k hs
  constructor
  · intro hA
    have hk1 : k + 1 = s * (k / s + 1) := by
      rw [Nat.mul_add, Nat.mul_one]
      omega
    constructor
    · rw [hk1]
      exact Nat.mul_mod_right s _
    · rw [hk1]
      exact Nat.mul_div_cancel_left _ hs
  · intro hB
    have hc : k % s + 1 < s := by omega
    have hk1 : k + 1 = s * (k / s) + (k % s + 1) := by omega
    constructor
    · rw [hk1, Nat.mul_add_mod]
      exact Nat.mod_eq_of_lt hc
    · rw [hk1, Nat.mul_add_div hs, Nat.div_eq_of_lt hc]
      omega

theorem playlist_advanceN_succ (now : Rat) :
    ∀ (k : Nat) (p : PlaylistS),
      playlist_advanceN now (k + 1) p =
        ((playlist_advance now (playlist_advanceN now k p).1).1,
          (playlist_advanceN now k p).2 +
            (if (playlist_advance now (playlist_advanceN now k p).1).2.1 then 1 else 0)) := by
  intro k
  induction k with
  | zero =>
      intro p
      simp [playlist_advanceN]
  | succ k ih =>
      intro p
      have hL : playlist_advanceN now (k + 1 + 1) p =
          ((playlist_advanceN now (k + 1) (playlist_advance now p).1).1,
            (if (playlist_advance now p).2.1 then 1 else 0) +
              (playlist_advanceN now (k + 1) (playlist_advance now p).1).2) := rfl
      have hR : playlist_advanceN now (k + 1) p =
          ((playlist_advanceN now k (playlist_advance now p).1).1,
            (if (playlist_advance now p).2.1 then 1 else 0) +
              (playlist_advanceN now k (playlist_advance now p).1).2) := rfl
      rw [hL, ih ((playlist_advance now p).1), hR]
      simp only [Prod.mk.injEq, true_and]
      omega

theorem playlist_advanceN_add (now : Rat) (a b : Nat) :
    ∀ (p : PlaylistS),
      playlist_advanceN now (a + b) p =
        ((playlist_advanceN now b (playlist_advanceN now a p).1).1,
          (playlist_advanceN now a p).2 +
            (playlist_advanceN now b (playlist_advanceN now a p).1).2) := by
  induction a with
  | zero =>
      intro p
      simp [playlist_advanceN]
  | succ a ih =>
      intro p
      have hL : playlist_advanceN now (a + 1 + b) p =
          ((playlist_advanceN now (a + b) (playlist_advance now p).1).1,
            (if (playlist_advance now p).2.1 then 1 else 0) +
              (playlist_advanceN now (a + b) (playlist_advance now p).1).2) := by
        have he : a + 1 + b = (a + b) + 1 := by omega
        rw [he]
        rfl
      have hR : playlist_advanceN now (a + 1) p =
          ((playlist_advanceN now a (playlist_advance now p).1).1,
            (if (playlist_advance now p).2.1 then 1 else 0) +
              (playlist_advanceN now a (playlist_advance now p).1).2) := rfl
      rw [hL, ih ((playlist_advance now p).1), hR]
      simp only [Prod.mk.injEq, true_and]
      omega

theorem advanceN_bounded (now : Rat) (steps : List Nat) (t : Nat) (tr : Bool) (n : Nat)
    (hn : 0 < n) (hs : 0 < steps.length) :
    ∀ k, k < n * steps.length →
      playlist_advanceN now k (playlist_start steps t tr true n) =
        ({ steps := steps, current_step_position := k % steps.length, repeatFlag := true,
           repeat_count := n, current_repeat_loop := k / steps.length, running := true,
           starting := decide (k = 0), stopping := false, step_time := t,
           trigger_show := tr }, k) := by
  intro k
  induction k with
  | zero =>
      intro _hk
      simp [playlist_advanceN, playlist_start]
  | succ k ih =>
      intro hk
      have hk0 : k < n * steps.length := by omega
      rw [playlist_advanceN_succ, ih hk0]
      have hn0 : n ≠ 0 := by omega
      by_cases hA : k % steps.length = steps.length - 1
      · obtain ⟨hm, hd⟩ := (mod_div_succ k steps.length hs).1 hA
        have hk1 : k + 1 = steps.length * (k / steps.length + 1) := by
          have hdm := Nat.div_add_mod k steps.length
          rw [Nat.mul_add, Nat.mul_one]
          omega
        have hloop : k / steps.length < n - 1 := by
          have hlt : steps.length * (k / steps.length + 1) < steps.length * n := by
            rw [← hk1, Nat.mul_comm steps.length n]
            exact hk
          have h2 := Nat.lt_of_mul_lt_mul_left hlt
          omega
        simp [playlist_advance, hA, hm, hd, hn0, hloop]
      · obtain ⟨hm, hd⟩ := (mod_div_succ k steps.length hs).2 hA
        simp [playlist_advance, hA, hm, hd]

theorem advanceN_bounded_final (now : Rat) (steps : List Nat) (t : Nat) (tr : Bool) (n : Nat)
    (hn : 0 < n) (hs : 0 < steps.length) :
    playlist_advanceN now (n * steps.length) (playlist_start steps t tr true n) =
      ({ steps := steps, current_step_position := 0, repeatFlag := true, repeat_count := n,
         current_repeat_loop := n - 1, running := true, starting := false, stopping := true,
         step_time := t, trigger_show := tr }, n * steps.length) := by
  obtain ⟨m, rfl⟩ : ∃ m, n = m + 1 := ⟨n - 1, by omega⟩
  have hpos : 0 < (m + 1) * steps.length := Nat.mul_pos (by omega) hs
  have hns : (m + 1) * steps.length = ((m + 1) * steps.length - 1) + 1 := by omega
  rw [hns, playlist_advanceN_succ,
    advanceN_bounded now steps t tr (m + 1) (by omega) hs _ (by omega)]
  have hsm : (m + 1) * steps.length - 1 = steps.length * m + (steps.length - 1) := by
    have h1 : (m + 1) * steps.length = m * steps.length + steps.length := Nat.succ_mul m _
    have h2 : m * steps.length = steps.length * m := Nat.mul_comm m _
    omega
  have hmod : ((m + 1) * steps.length - 1) % steps.length = steps.length - 1 := by
    rw [hsm, Nat.mul_add_mod]
    exact Nat.mod_eq_of_lt (by omega)
  have hdiv : ((m + 1) * steps.length - 1) / steps.length = m := by
    rw [hsm, Nat.mul_add_div hs, Nat.div_eq_of_lt (by omega)]
    omega
  have hloopstop : ¬ (m < m + 1 - 1) := by omega
  simp [playlist_advance, hmod, hdiv, hloopstop]

theorem advanceN_stopped (now : Rat) (j : Nat) :
    ∀ (p : PlaylistS), p.stopping = true → p.running = true → p.starting = false →
      playlist_advanceN now j p = (p, 0) := by
  induction j with
  | zero => intro p _ _ _; rfl
  | succ j ih =>
      intro p hstop hrun hstart
      have hadv : playlist_advance now p = (p, false, none) := by
        obtain ⟨f1, f2, f3, f4, f5, f6, f7, f8, f9, f10⟩ := p
        simp only at hstop hrun hstart
        subst hstop; subst hrun; subst hstart
        rfl
      have hstep : playlist_advanceN now (j + 1) p =
          ((playlist_advanceN now j (playlist_advance now p).1).1,
            (if (playlist_advance now p).2.1 then 1 else 0) +
              (playlist_advanceN now j (playlist_advance now p).1).2) := rfl
      rw [hstep, hadv]
      simp only []
      rw [ih p hstop hrun hstart]
      simp

theorem advanceN_unbounded (now : Rat) (steps : List Nat) (t : Nat) (tr : Bool)
    (hs : 0 < steps.length) :
    ∀ k, playlist_advanceN now k (playlist_start steps t tr true 0) =
      ({ steps := steps, current_step_position := k % steps.length, repeatFlag := true,
         repeat_count := 0, current_repeat_loop := 0, running := true,
         starting := decide (k = 0), stopping := false, step_time := t,
         trigger_show := tr }, k) := by
  intro k
  induction k with
  | zero => simp [playlist_advanceN, playlist_start]
  | succ k ih =>
      rw [playlist_advanceN_succ, ih]
      by_cases hA : k % steps.length = steps.length - 1
      · obtain ⟨hm, hd⟩ := (mod_div_succ k steps.length hs).1 hA
        simp [playlist_advance, hA, hm, hd]
      · obtain ⟨hm, hd⟩ := (mod_div_succ k steps.length hs).2 hA
        simp [playlist_advance, hA, hm, hd]

theorem advanceN_norepeat (now : Rat) (steps : List Nat) (t : Nat) (tr : Bool)
    (hs : 0 < steps.length) :
    ∀ k, k < steps.length →
      playlist_advanceN now k (playlist_start steps t tr false 0) =
        ({ steps := steps, current_step_position := k, repeatFlag := false,
           repeat_count := 0, current_repeat_loop := 0, running := true,
           starting := decide (k = 0), stopping := false, step_time := t,
           trigger_show := tr }, k) := by
  intro k
  induction k with
  | zero =>
      intro _hk
      simp [playlist_advanceN, playlist_start]
  | succ k ih =>
      intro hk
      rw [playlist_advanceN_succ, ih (by omega)]
      have hA : k ≠ steps.length - 1 := by omega
      simp [playlist_advance, hA]

theorem advanceN_norepeat_final (now : Rat) (steps : List Nat) (t : Nat) (tr : Bool)
    (hs : 0 < steps.length) :
    playlist_advanceN now steps.length (playlist_start steps t tr false 0) =
      ({ steps := steps, current_step_position := 0, repeatFlag := false,
         repeat_count := 0, current_repeat_loop := 0, running := true,
         starting := false, stopping := true, step_time := t,
         trigger_show := tr }, steps.length) := by
  have hns : steps.length = (steps.length - 1) + 1 := by omega
  rw [hns, playlist_advanceN_succ, advanceN_norepeat now steps t tr hs _ (by omega)]
  simp [playlist_advance]

/-- C6: upon advancing past the last step the position wraps to 0 and the
repeat policy is applied: with repeat and repeat_count = 0 the playlist
never sets stopping on its own; with repeat and repeat_count = n > 0 it
performs exactly n * (number of steps) step-advances, stopping being set by
the last of them with the position wrapped to 0, and no later call plays a
step; with repeat off, stopping is set at the first wraparound, after
exactly steps.length step-advances. -/
theorem c6_playlist_repeat_policy (now : Rat) (steps : List Nat) (t : Nat) (tr : Bool)
    (n : Nat) (hn : 0 < n) (hs : 0 < steps.length) :
    (∀ k, k < n * steps.length →
       (playlist_advanceN now k (playlist_start steps t tr true n)).1.stopping = false ∧
       (playlist_advanceN now k (playlist_start steps t tr true n)).2 = k) ∧
    ((playlist_advanceN now (n * steps.length)
        (playlist_start steps t tr true n)).1.stopping = true ∧
     (playlist_advanceN now (n * steps.length)
        (playlist_start steps t tr true n)).1.current_step_position = 0 ∧
     (playlist_advanceN now (n * steps.length)
        (playlist_start steps t tr true n)).2 = n * steps.length) ∧
    (∀ j, (playlist_advanceN now (n * steps.length + j)
        (playlist_start steps t tr true n)).2 = n * steps.length) ∧
    (∀ k, (playlist_advanceN now k (playlist_start steps t tr true 0)).1.stopping = false) ∧
    (∀ k, k < steps.length →
       (playlist_advanceN now k (playlist_start steps t tr false 0)).1.stopping = false) ∧
    ((playlist_advanceN now steps.length
        (playlist_start steps t tr false 0)).1.stopping = true ∧
     (playlist_advanceN now steps.length
        (playlist_start steps t tr false 0)).2 = steps.length) := by
  refine ⟨?_, ?_, ?_, ?_, ?_, ?_⟩
  · intro k hk
    rw [advanceN_bounded now steps t tr n hn hs k hk]
    exact ⟨rfl, rfl⟩
  · rw [advanceN_bounded_final now steps t tr n hn hs]
    exact ⟨rfl, rfl, rfl⟩
  · intro j
    rw [playlist_advanceN_add, advanceN_bounded_final now steps t tr n hn hs]
    rw [advanceN_stopped now j _ rfl rfl rfl]
    simp
  · intro k
    rw [advanceN_unbounded now steps t tr hs k]
  · intro k hk
    rw [advanceN_norepeat now steps t tr hs k hk]
  · rw [advanceN_norepeat_final now steps t tr hs]
    exact ⟨rfl, rfl⟩

/-- C6 witness: a 2-step playlist with repeat_count 2 stops exactly at the
4th step-advance, and a 3-step playlist without repeat stops exactly at the
3rd. -/
theorem c6_playlist_repeat_policy_witness :
    ((playlist_advanceN 0 4 (playlist_start [1, 2] 0 false true 2)).1.stopping = true ∧
     (playlist_advanceN 0 4 (playlist_start [1, 2] 0 false true 2)).2 = 4) ∧
    ((playlist_advanceN 0 3 (playlist_start [1, 2, 3] 0 false true 2)).1.stopping = false) ∧
    ((playlist_advanceN 0 3 (playlist_start [1, 2, 3] 0 false false 0)).1.stopping = true) := by
  have h1 := (c6_playlist_repeat_policy 0 [1, 2] 0 false 2 (by decide) (by decide)).2.1
  have h2 := (c6_playlist_repeat_policy 0 [1, 2, 3] 0 false 2 (by decide) (by decide)).1
    3 (by decide)
  have h3 := (c6_playlist_repeat_policy 0 [1, 2, 3] 0 false 2 (by decide)
    (by decide)).2.2.2.2.2.1
  exact ⟨⟨h1.1, h1.2.2⟩, h2.1, h3⟩

end Mpf
